import Mathlib

/-!
Shallow embedding of the client-side task-scheduling model of the
`planning_ai` weekly Kanban board (src/index.tsx, the "later variant",
and the older revision embedded in src/unnamed/part_001, the "earlier
variant"), together with proofs of the spec's testable properties.

Time model: an instant is an `Int`, the number of milliseconds since the
Unix epoch, exactly the value of JavaScript's `Date.getTime()`.  The
repository declares timezone handling a non-goal ("local browser time"),
so local time and the epoch timeline coincide in the model and the
day-key `format(date, 'yyyy-MM-dd')` becomes the floor-division of the
instant by the number of milliseconds in a day.  Calendar days are
likewise `Int` day indices (day 0 = 1970-01-01, a Thursday).
-/

namespace Planning

/-- Milliseconds in one minute (the literal `60000` of the source). -/
def msPerMin : Int := 60000

/-- Milliseconds in one day. -/
def msPerDay : Int := 86400000

/-- Day-key of an instant: the calendar date `format(d, 'yyyy-MM-dd')`
as a day index (`Int` division is Euclidean, i.e. floor division for
the positive divisor). -/
def dayIndex (t : Int) : Int := t / msPerDay

/-- The hours-and-minutes offset of an instant within its day, in
milliseconds, truncated to whole minutes: the quantity transferred by
`targetDate.setHours(orig.getHours(), orig.getMinutes())` when
`targetDate` is a day's midnight. -/
def minuteOffsetMs (t : Int) : Int := ((t % msPerDay) / msPerMin) * msPerMin

/- ### Time-Window Calculator (src/index.tsx:130-135)
`startOfWeek(currentDate, { locale: fr })` with the French locale starts
weeks on Monday.  Day 0 (1970-01-01) is a Thursday, so the Monday-based
weekday of day `d` is `(d + 3) % 7`. -/

/-- Monday-based weekday of a day index: 0 = Monday, ..., 6 = Sunday. -/
def weekdayMon (d : Int) : Int := (d + 3) % 7

/-- `startOfWeek(d, { locale: fr })`: the Monday of `d`'s week. -/
def startOfWeek (d : Int) : Int := d - weekdayMon d

/-- `endOfWeek(d, { locale: fr })`: the Sunday of `d`'s week. -/
def endOfWeek (d : Int) : Int := startOfWeek d + 6

/-- `eachDayOfInterval({ start, end })`: every calendar day from `s`
to `e` inclusive. -/
def eachDayOfInterval (s e : Int) : List Int :=
  (List.range (e - s + 1).toNat).map (fun i => s + (i : Int))

/-- The week-day list computed by `fetchTasks` and stored with
`setWeekDays(eachDayOfInterval({ start, end }))`. -/
def weekDays (anchor : Int) : List Int :=
  eachDayOfInterval (startOfWeek anchor) (endOfWeek anchor)

/- ### Data model, later variant (src/index.tsx:16-32) -/

/-- A task row (`Card`) of the later variant.  `datetime_start` and
`datetime_end` are instants; `created_at` is an instant. -/
structure Card where
  id : String
  user_id : String
  created_at : Int
  title : String
  subtasks : List String
  datetime_start : Int
  datetime_end : Int
  duration_min : Int
  category : String
  priority : String
  notes : String
deriving DecidableEq

/-- `ScheduleData`: mapping from day-key to the day's card list, in
week order (a JS object keyed by `'yyyy-MM-dd'` strings). -/
abbrev ScheduleData := List (Int × List Card)

/-- Column lookup `scheduleData[day] || []`. -/
def lookupDay (sched : ScheduleData) (d : Int) : List Card :=
  match sched.find? (fun p => p.1 == d) with
  | some p => p.2
  | none => []

/-- The comparator of `sortCards` (src/index.tsx:95-101):
`new Date(a.datetime_start).getTime() - new Date(b.datetime_start).getTime()`. -/
def cardStartLE (a b : Card) : Prop := a.datetime_start ≤ b.datetime_start

instance : DecidableRel cardStartLE :=
  fun a b => inferInstanceAs (Decidable (a.datetime_start ≤ b.datetime_start))

instance : IsTotal Card cardStartLE :=
  ⟨by intro a b; unfold cardStartLE; omega⟩

instance : IsTrans Card cardStartLE :=
  ⟨by intro a b c hab hbc; unfold cardStartLE at *; omega⟩

/-- `sortCards` (src/index.tsx:95-101): a stable sort of the cards by
ascending start instant (`Array.prototype.sort` is stable; any stable
sort by the same total preorder produces the same list). -/
def sortCards (cards : List Card) : List Card :=
  List.insertionSort cardStartLE cards

/-- The success branch of `fetchTasks` (src/index.tsx:148-167): one
column per week day in order, each holding the fetched tasks whose
day-key equals the column's key (tasks whose key is not a column are
dropped by the `if (newScheduleData[taskDateStr])` guard), sorted by
`sortCards`. -/
def buildSchedule (weekKeys : List Int) (tasks : List Card) : ScheduleData :=
  weekKeys.map (fun d => (d, sortCards (tasks.filter (fun t => dayIndex t.datetime_start == d))))

/-- `fetchTasks` (src/index.tsx:130-169) as a pure step: given the
store's response and the anchor date, produce the new `ScheduleData`
and whether an error was logged.  On error the state is set to the
empty object (`setScheduleData({})`); the prior state is overwritten in
both branches. -/
def fetchTasks (res : Except String (List Card)) (anchor : Int) (_prior : ScheduleData) :
    ScheduleData × Bool :=
  match res with
  | .error _ => ([], true)
  | .ok tasks => (buildSchedule (weekDays anchor) tasks, false)

/- ### Data model, earlier variant (src/unnamed/part_001:71-81) -/

/-- A task row of the earlier variant: a calendar date (`task_date`,
a day index) plus a coarse time-of-day string. -/
structure CardOld where
  id : String
  user_id : String
  created_at : Int
  task_date : Int
  title : String
  time : String
  details : String
  color : String
  progress : Int
deriving DecidableEq

/-- `ScheduleData` of the earlier variant. -/
abbrev ScheduleDataOld := List (Int × List CardOld)

/-- Column lookup of the earlier variant. -/
def lookupDayOld (sched : ScheduleDataOld) (d : Int) : List CardOld :=
  match sched.find? (fun p => p.1 == d) with
  | some p => p.2
  | none => []

/-- `timeToSortValue` (src/unnamed/part_001:176-183). -/
def timeToSortValue (time : String) : Nat :=
  if time = "Toute la journée" then 0
  else if time = "Matin" then 1
  else if time = "Après-midi" then 2
  else 3

/-- The comparator of the earlier `sortCards`
(src/unnamed/part_001:185-196): task dates first, then the fixed
time-of-day rank. -/
def cardOldLE (a b : CardOld) : Prop :=
  a.task_date < b.task_date ∨
    (a.task_date = b.task_date ∧ timeToSortValue a.time ≤ timeToSortValue b.time)

instance : DecidableRel cardOldLE :=
  fun a b => inferInstanceAs (Decidable (a.task_date < b.task_date ∨
    (a.task_date = b.task_date ∧ timeToSortValue a.time ≤ timeToSortValue b.time)))

instance : IsTotal CardOld cardOldLE :=
  ⟨by intro a b; unfold cardOldLE; omega⟩

instance : IsTrans CardOld cardOldLE :=
  ⟨by intro a b c hab hbc; unfold cardOldLE at *; omega⟩

/-- The earlier `sortCards` as a stable sort by its comparator. -/
def sortCardsOld (cards : List CardOld) : List CardOld :=
  List.insertionSort cardOldLE cards

/-- The success branch of the earlier `fetchTasks`
(src/unnamed/part_001:238-256). -/
def buildScheduleOld (weekKeys : List Int) (tasks : List CardOld) : ScheduleDataOld :=
  weekKeys.map (fun d => (d, sortCardsOld (tasks.filter (fun t => t.task_date == d))))

/-- The earlier `fetchTasks` (src/unnamed/part_001:220-258) as a pure
step; the error branch likewise clears the state to the empty object. -/
def fetchTasksOld (res : Except String (List CardOld)) (anchor : Int)
    (_prior : ScheduleDataOld) : ScheduleDataOld × Bool :=
  match res with
  | .error _ => ([], true)
  | .ok tasks => (buildScheduleOld (weekDays anchor) tasks, false)

/- ### findCardLocation and moveCard (src/index.tsx:176-239) -/

/-- `findCardLocation` (src/index.tsx:176-183): scan the columns in
order and return the first column key and card whose id matches. -/
def findCardLocation (sched : ScheduleData) (cardId : String) : Option (Int × Card) :=
  match sched with
  | [] => none
  | (day, cards) :: rest =>
    match cards.find? (fun c => c.id == cardId) with
    | some c => some (day, c)
    | none => findCardLocation rest cardId

/-- The earlier `findCardLocation` (src/unnamed/part_001:265-271). -/
def findCardLocationOld (sched : ScheduleDataOld) (cardId : String) : Option (Int × CardOld) :=
  match sched with
  | [] => none
  | (day, cards) :: rest =>
    match cards.find? (fun c => c.id == cardId) with
    | some c => some (day, c)
    | none => findCardLocationOld rest cardId

/-- The column-value record passed to `supabase.update` by the later
`moveCard` (src/index.tsx:230-233).  Every column of the `tasks` table
is optional; only the columns present in the JS object literal are
`some`. -/
structure MoveUpdate where
  datetime_start : Option Int
  datetime_end : Option Int
  title : Option String
  subtasks : Option (List String)
  duration_min : Option Int
  category : Option String
  priority : Option String
  notes : Option String
  created_at : Option Int
  user_id : Option String
deriving DecidableEq

/-- Observable outcome of a `moveCard` call: the (unchanged) local
state — `moveCard` never calls `setScheduleData`, only the refetch
does — the issued store write (`update ... .eq('id', cardId)`), and
whether `fetchTasks` was triggered. -/
structure MoveOutcome where
  newSchedule : ScheduleData
  write : Option (String × MoveUpdate)
  refetch : Bool

/-- `moveCard` (src/index.tsx:217-239).  `new Date(targetDay)` is the
target day's midnight; `setHours(orig.getHours(), orig.getMinutes())`
transplants the original whole-minute time-of-day onto it; the new end
is the new start plus `duration_min * 60000` milliseconds.  If the card
is not located, the function returns before doing anything. -/
def moveCard (sched : ScheduleData) (cardId : String) (targetDay : Int) : MoveOutcome :=
  match findCardLocation sched cardId with
  | none => { newSchedule := sched, write := none, refetch := false }
  | some (_, originalCard) =>
    let newStartDate := targetDay * msPerDay + minuteOffsetMs originalCard.datetime_start
    let newEndDate := newStartDate + originalCard.duration_min * 60000
    { newSchedule := sched
      write := some (cardId,
        { datetime_start := some newStartDate, datetime_end := some newEndDate,
          title := none, subtasks := none, duration_min := none, category := none,
          priority := none, notes := none, created_at := none, user_id := none })
      refetch := true }

/-- The column-value record passed to `supabase.update` by the earlier
`moveCard` (src/unnamed/part_001:307-310): only `task_date`. -/
structure MoveUpdateOld where
  task_date : Option Int
  title : Option String
  time : Option String
  details : Option String
  color : Option String
  progress : Option Int
  created_at : Option Int
  user_id : Option String
deriving DecidableEq

/-- Observable outcome of the earlier `moveCard`. -/
structure MoveOutcomeOld where
  write : Option (String × MoveUpdateOld)
  refetch : Bool
deriving DecidableEq

/-- The earlier `moveCard` (src/unnamed/part_001:306-316): it issues
the `task_date` update unconditionally, without consulting the local
state at all, then refetches. -/
def moveCardOld (cardId : String) (targetDay : Int) : MoveOutcomeOld :=
  { write := some (cardId,
      { task_date := some targetDay, title := none, time := none, details := none,
        color := none, progress := none, created_at := none, user_id := none })
    refetch := true }

/- ### CardModal.handleSave and handleSaveCard (src/index.tsx:372-385, 622-661) -/

/-- The later edit modal's form state (src/index.tsx:318-326): note
that it has no `datetime_end` field. -/
structure CardForm where
  title : String
  datetime_start : Int
  duration_min : Int
  category : String
  priority : String
  subtasks : List String
  notes : String
deriving DecidableEq

/-- The `dataToSave` record built by the modal (src/index.tsx:378-382):
the form fields plus a recomputed `datetime_end`. -/
structure SaveData where
  title : String
  datetime_start : Int
  duration_min : Int
  category : String
  priority : String
  subtasks : List String
  notes : String
  datetime_end : Int
deriving DecidableEq

/-- `CardModal`'s `handleSave` (src/index.tsx:372-385): abort with an
alert when the title is empty (falsy); otherwise save the form with
`datetime_end := start + duration_min * 60000` and the blank subtasks
filtered out. -/
def handleSave (formData : CardForm) : Option SaveData :=
  if formData.title == "" then none
  else
    let startDate := formData.datetime_start
    let endDate := startDate + formData.duration_min * 60000
    some { title := formData.title
           datetime_start := formData.datetime_start
           duration_min := formData.duration_min
           category := formData.category
           priority := formData.priority
           subtasks := formData.subtasks.filter (fun st => !(st.trim == ""))
           notes := formData.notes
           datetime_end := endDate }

/-- The immediate action taken by `handleSaveCard`. -/
inductive SaveAction where
  | promptConflict
  | addCardNow
  | updateCardNow
  | closeOnly
deriving DecidableEq

/-- The conflict scan of the later `handleSaveCard`
(src/index.tsx:626-633): some card in the column of the new start's
day-key has an identical start. -/
def hasNewCardConflict (sched : ScheduleData) (formData : SaveData) : Bool :=
  (lookupDay sched (dayIndex formData.datetime_start)).any
    (fun card => card.datetime_start == formData.datetime_start)

/-- `handleSaveCard` (src/index.tsx:622-661).  `isNew = !cardId`; the
conflict scan runs only in the new-card branch.  In the update branch
the card is updated when located, otherwise the modal just closes. -/
def handleSaveCard (sched : ScheduleData) (formData : SaveData) (cardId : Option String) :
    SaveAction :=
  match cardId with
  | none =>
    if hasNewCardConflict sched formData then .promptConflict else .addCardNow
  | some cid =>
    match findCardLocation sched cid with
    | some _ => .updateCardNow
    | none => .closeOnly

/-- The earlier edit modal's form state (src/unnamed/part_001:421-428). -/
structure OldForm where
  title : String
  task_date : Int
  time : String
  details : String
  color : String
  progress : Int
deriving DecidableEq

/-- The conflict scan of the earlier `handleSaveCard`
(src/unnamed/part_001:669-677): conflict when either card is all-day
or both share the same time-of-day. -/
def hasNewCardConflictOld (sched : ScheduleDataOld) (formData : OldForm) : Bool :=
  (lookupDayOld sched formData.task_date).any
    (fun card => card.time == "Toute la journée" || formData.time == "Toute la journée" ||
      card.time == formData.time)

/-- The earlier `handleSaveCard` (src/unnamed/part_001:646-683). -/
def handleSaveCardOld (sched : ScheduleDataOld) (formData : OldForm) (cardId : Option String) :
    SaveAction :=
  match cardId with
  | none =>
    if hasNewCardConflictOld sched formData then .promptConflict else .addCardNow
  | some cid =>
    match findCardLocationOld sched cid with
    | some _ => .updateCardNow
    | none => .closeOnly

/- ### handleAIGenerate (src/index.tsx:663-680, src/unnamed/part_001:685-702) -/

/-- The parsed AI JSON of the later variant: each expected field may be
absent.  Absent or empty-string date fields collapse to `none`. -/
structure AIDraft where
  title : Option String
  subtasks : Option (List String)
  datetime_start : Option Int
  datetime_end : Option Int
  duration_min : Option Int
  category : Option String
  priority : Option String
  notes : Option String
deriving DecidableEq

/-- JS truthiness of an optional string: present and non-empty. -/
def truthyStr : Option String → Bool
  | none => false
  | some s => !(s == "")

/-- JS truthiness of an optional number: present and non-zero. -/
def truthyInt : Option Int → Bool
  | none => false
  | some n => !(n == 0)

/-- The required-field check of the later `handleAIGenerate`
(src/index.tsx:671): `cardData.title && cardData.datetime_start &&
cardData.datetime_end && cardData.duration_min && cardData.category &&
cardData.priority`. -/
def aiDraftComplete (c : AIDraft) : Bool :=
  truthyStr c.title && c.datetime_start.isSome && c.datetime_end.isSome &&
    truthyInt c.duration_min && truthyStr c.category && truthyStr c.priority

/-- Observable outcome of `handleAIGenerate`: the draft opened in the
edit modal (if any), whether the failure alert fired, and the schedule
state, which the handler never touches. -/
structure AIOutcome where
  editingCard : Option AIDraft
  alerted : Bool
  schedule : ScheduleData

/-- `handleAIGenerate` (src/index.tsx:663-680) on a parsed response:
open the modal with the draft (subtasks and notes reinitialized) when
all required fields are truthy, otherwise alert and do nothing else. -/
def handleAIGenerate (resp : AIDraft) (sched : ScheduleData) : AIOutcome :=
  if aiDraftComplete resp then
    { editingCard := some { resp with subtasks := some [], notes := some "" }
      alerted := false, schedule := sched }
  else
    { editingCard := none, alerted := true, schedule := sched }

/-- The parsed AI JSON of the earlier variant. -/
structure AIDraftOld where
  title : Option String
  task_date : Option Int
  time : Option String
  details : Option String
deriving DecidableEq

/-- The required-field check of the earlier `handleAIGenerate`
(src/unnamed/part_001:693): `cardData.title && cardData.task_date &&
cardData.time`. -/
def aiDraftOldComplete (c : AIDraftOld) : Bool :=
  truthyStr c.title && c.task_date.isSome && truthyStr c.time

/-- Observable outcome of the earlier `handleAIGenerate`. -/
structure AIOutcomeOld where
  editingCard : Option AIDraftOld
  alerted : Bool
  schedule : ScheduleDataOld

/-- The earlier `handleAIGenerate` (src/unnamed/part_001:685-702). -/
def handleAIGenerateOld (resp : AIDraftOld) (sched : ScheduleDataOld) : AIOutcomeOld :=
  if aiDraftOldComplete resp then
    { editingCard := some resp, alerted := false, schedule := sched }
  else
    { editingCard := none, alerted := true, schedule := sched }

/- ### Theorems -/

/-- The week-day list is the explicit run of 7 consecutive days from
the week's Monday. -/
theorem weekDays_eq (anchor : Int) :
    weekDays anchor = [startOfWeek anchor, startOfWeek anchor + 1, startOfWeek anchor + 2,
      startOfWeek anchor + 3, startOfWeek anchor + 4, startOfWeek anchor + 5,
      startOfWeek anchor + 6] := by
  have h7 : (endOfWeek anchor - startOfWeek anchor + 1).toNat = 7 := by
    unfold endOfWeek; omega
  unfold weekDays eachDayOfInterval
  rw [h7]
  simp [List.range_succ]

/-- C4: for every anchor date, the Time-Window Calculator returns
exactly the 7 consecutive calendar days of the anchor's week, the first
being a Monday (weekday 0 under the French locale's Monday-first
convention), and the anchor lies within the returned list. -/
theorem timeWindow_seven_consecutive_monday (anchor : Int) :
    weekDays anchor = [startOfWeek anchor, startOfWeek anchor + 1, startOfWeek anchor + 2,
      startOfWeek anchor + 3, startOfWeek anchor + 4, startOfWeek anchor + 5,
      startOfWeek anchor + 6]
    ∧ (weekDays anchor).length = 7
    ∧ weekdayMon (startOfWeek anchor) = 0
    ∧ anchor ∈ weekDays anchor := by
  refine ⟨weekDays_eq anchor, ?_, ?_, ?_⟩
  · rw [weekDays_eq]; rfl
  · unfold startOfWeek weekdayMon; omega
  · rw [weekDays_eq]
    simp only [List.mem_cons, List.not_mem_nil, or_false]
    unfold startOfWeek weekdayMon
    omega

/-- C5: for every fetch whose store call returns an error, both
variants of `fetchTasks` log the error and set the in-memory
`ScheduleData` to the empty object, independently of (and never
preserving) the previously fetched state. -/
theorem fetch_error_clears_state (msg : String) (anchor : Int) (prior : ScheduleData)
    (msgOld : String) (anchorOld : Int) (priorOld : ScheduleDataOld) :
    fetchTasks (.error msg) anchor prior = ([], true)
    ∧ fetchTasksOld (.error msgOld) anchorOld priorOld = ([], true) :=
  ⟨rfl, rfl⟩

/-- C2: the conflict detector fires exactly on the cases the spec
names, and only when saving a new task.  Later variant: a new-card save
prompts for confirmation iff some in-memory card on the new start's day
has the identical start instant.  Earlier variant: iff some card on the
target day is all-day, or the new card is all-day, or both share the
same time-of-day.  A save with a card id (an update) never prompts: it
either updates the located card or merely closes the modal. -/
theorem conflict_detector_exact (sched : ScheduleData) (formData : SaveData)
    (schedOld : ScheduleDataOld) (formOld : OldForm) (cid cidOld : String) :
    (handleSaveCard sched formData none = .promptConflict ↔
      ∃ card ∈ lookupDay sched (dayIndex formData.datetime_start),
        card.datetime_start = formData.datetime_start)
    ∧ (handleSaveCard sched formData (some cid) = .updateCardNow ∨
        handleSaveCard sched formData (some cid) = .closeOnly)
    ∧ (handleSaveCardOld schedOld formOld none = .promptConflict ↔
      ∃ card ∈ lookupDayOld schedOld formOld.task_date,
        card.time = "Toute la journée" ∨ formOld.time = "Toute la journée" ∨
          card.time = formOld.time)
    ∧ (handleSaveCardOld schedOld formOld (some cidOld) = .updateCardNow ∨
        handleSaveCardOld schedOld formOld (some cidOld) = .closeOnly) := by
  refine ⟨?_, ?_, ?_, ?_⟩
  · have hstep : handleSaveCard sched formData none = .promptConflict ↔
        hasNewCardConflict sched formData = true := by
      unfold handleSaveCard
      rcases h : hasNewCardConflict sched formData with _ | _ <;> simp [h]
    rw [hstep]
    unfold hasNewCardConflict
    simp [List.any_eq_true]
  · unfold handleSaveCard
    rcases h : findCardLocation sched cid with _ | loc
    · right; simp [h]
    · left; simp [h]
  · have hstep : handleSaveCardOld schedOld formOld none = .promptConflict ↔
        hasNewCardConflictOld schedOld formOld = true := by
      unfold handleSaveCardOld
      rcases h : hasNewCardConflictOld schedOld formOld with _ | _ <;> simp [h]
    rw [hstep]
    unfold hasNewCardConflictOld
    simp [List.any_eq_true, or_assoc]
  · unfold handleSaveCardOld
    rcases h : findCardLocationOld schedOld cidOld with _ | loc
    · right; simp [h]
    · left; simp [h]

/-- Decomposition of a column of `buildSchedule`: its key is one of the
week keys and its list is the sorted filter of the fetched tasks. -/
theorem mem_buildSchedule {w : List Int} {ts : List Card} {d : Int} {col : List Card}
    (h : (d, col) ∈ buildSchedule w ts) :
    d ∈ w ∧ col = sortCards (ts.filter (fun t => dayIndex t.datetime_start == d)) := by
  unfold buildSchedule at h
  rcases List.mem_map.mp h with ⟨d0, hd0, heq⟩
  injection heq with h1 h2
  subst h1
  exact ⟨hd0, h2.symm⟩

/-- Decomposition of a column of `buildScheduleOld`. -/
theorem mem_buildScheduleOld {w : List Int} {ts : List CardOld} {d : Int} {col : List CardOld}
    (h : (d, col) ∈ buildScheduleOld w ts) :
    d ∈ w ∧ col = sortCardsOld (ts.filter (fun t => t.task_date == d)) := by
  unfold buildScheduleOld at h
  rcases List.mem_map.mp h with ⟨d0, hd0, heq⟩
  injection heq with h1 h2
  subst h1
  exact ⟨hd0, h2.symm⟩

/-- C3: every column of a successful fetch holds exactly tasks whose
day-key (derived from the task's scheduling field) equals the column's
key, and each column is sorted: ascending by start instant in the later
variant, and by the fixed time-of-day rank (all-day 0 < morning 1 <
afternoon 2 < other 3) in the earlier variant, whose within-column
start times all tie on the shared date. -/
theorem fetch_files_by_day_and_sorts (w : List Int) (ts : List Card) (d : Int)
    (col : List Card) (wOld : List Int) (tsOld : List CardOld) (dOld : Int)
    (colOld : List CardOld)
    (h : (d, col) ∈ buildSchedule w ts)
    (hOld : (dOld, colOld) ∈ buildScheduleOld wOld tsOld) :
    ((∀ c ∈ col, dayIndex c.datetime_start = d) ∧ col.Sorted cardStartLE)
    ∧ ((∀ c ∈ colOld, c.task_date = dOld)
        ∧ colOld.Sorted (fun a b => timeToSortValue a.time ≤ timeToSortValue b.time)) := by
  obtain ⟨-, hcol⟩ := mem_buildSchedule h
  obtain ⟨-, hcolOld⟩ := mem_buildScheduleOld hOld
  subst hcol
  subst hcolOld
  have hdatesOld : ∀ c ∈ sortCardsOld (tsOld.filter (fun t => t.task_date == dOld)),
      c.task_date = dOld := by
    intro c hc
    have hmem := (List.mem_insertionSort _).mp hc
    simpa using (List.mem_filter.mp hmem).2
  refine ⟨⟨?_, List.sorted_insertionSort cardStartLE _⟩, hdatesOld, ?_⟩
  · intro c hc
    have hmem := (List.mem_insertionSort _).mp hc
    simpa using (List.mem_filter.mp hmem).2
  · have hs := List.sorted_insertionSort cardOldLE (tsOld.filter (fun t => t.task_date == dOld))
    exact hs.imp_of_mem (fun ha hb hr => by
      have h1 := hdatesOld _ ha
      have h2 := hdatesOld _ hb
      unfold cardOldLE at hr
      omega)

/-- Example card A, scheduled at 00:01 of day 0. -/
def exCardA : Card :=
  { id := "a", user_id := "u", created_at := 0, title := "A", subtasks := [],
    datetime_start := 60000, datetime_end := 120000, duration_min := 1,
    category := "Travail", priority := "haute", notes := "" }

/-- Example card B, scheduled at 00:00 of day 0. -/
def exCardB : Card :=
  { id := "b", user_id := "u", created_at := 0, title := "B", subtasks := [],
    datetime_start := 0, datetime_end := 60000, duration_min := 1,
    category := "Perso", priority := "basse", notes := "" }

/-- Example earlier-variant card on day 0, afternoon. -/
def exCardOldA : CardOld :=
  { id := "a", user_id := "u", created_at := 0, task_date := 0, title := "A",
    time := "Après-midi", details := "", color := "bg-teal-200", progress := 0 }

/-- Example earlier-variant card on day 0, morning. -/
def exCardOldB : CardOld :=
  { id := "b", user_id := "u", created_at := 0, task_date := 0, title := "B",
    time := "Matin", details := "", color := "bg-red-200", progress := 0 }

/-- C3 witness: the theorem applied to a concrete fetch of two tasks
in each variant, arriving out of order. -/
theorem fetch_files_by_day_and_sorts_witness :
    ((∀ c ∈ [exCardB, exCardA], dayIndex c.datetime_start = 0)
      ∧ ([exCardB, exCardA]).Sorted cardStartLE)
    ∧ ((∀ c ∈ [exCardOldB, exCardOldA], c.task_date = 0)
      ∧ ([exCardOldB, exCardOldA]).Sorted
          (fun a b => timeToSortValue a.time ≤ timeToSortValue b.time)) :=
  fetch_files_by_day_and_sorts [0] [exCardA, exCardB] 0 [exCardB, exCardA]
    [0] [exCardOldA, exCardOldB] 0 [exCardOldB, exCardOldA] (by decide) (by decide)

/-- Example card scheduled on day 10, outside the displayed week of
anchor 0. -/
def exCardFar : Card :=
  { id := "f", user_id := "u", created_at := 0, title := "F", subtasks := [],
    datetime_start := 864000000, datetime_end := 864060000, duration_min := 1,
    category := "Admin", priority := "moyenne", notes := "" }

/-- C9: after a successful fetch the key set of `ScheduleData` is
exactly the 7 day-keys of the displayed week (in order), and a fetched
task whose day-key is not among them appears in no column. -/
theorem fetch_keys_exact_and_drops_outside (anchor : Int) (ts : List Card) (t : Card)
    (d : Int) (col : List Card)
    (_ht : t ∈ ts) (hout : dayIndex t.datetime_start ∉ weekDays anchor)
    (hcol : (d, col) ∈ buildSchedule (weekDays anchor) ts) :
    (buildSchedule (weekDays anchor) ts).map Prod.fst = weekDays anchor
    ∧ (weekDays anchor).length = 7
    ∧ t ∉ col := by
  refine ⟨?_, ?_, ?_⟩
  · unfold buildSchedule
    simp [Function.comp_def]
  · rw [weekDays_eq]; rfl
  · obtain ⟨hd, hcoleq⟩ := mem_buildSchedule hcol
    subst hcoleq
    intro htc
    have hmem := (List.mem_insertionSort _).mp htc
    have hpred : dayIndex t.datetime_start = d := by
      simpa using (List.mem_filter.mp hmem).2
    exact hout (hpred ▸ hd)

/-- C9 witness: the theorem applied to a fetch of one task scheduled
on day 10 against the week of anchor 0 (days -3..3). -/
theorem fetch_keys_exact_and_drops_outside_witness :
    (buildSchedule (weekDays 0) [exCardFar]).map Prod.fst = weekDays 0
    ∧ (weekDays 0).length = 7
    ∧ exCardFar ∉ ([] : List Card) :=
  fetch_keys_exact_and_drops_outside 0 [exCardFar] exCardFar (-3) []
    (by decide) (by decide) (by decide)

/-- Span (new end minus new start) of the instants carried by a move's
write payload, if any. -/
def writeSpan (o : MoveOutcome) : Option Int :=
  o.write.bind (fun w =>
    match w.2.datetime_start, w.2.datetime_end with
    | some s, some e => some (e - s)
    | _, _ => none)

/-- A card whose stored span (end minus start: 2 hours) disagrees with
its `duration_min` field (60 minutes) — such a row can be fetched from
the store, which never enforces the consistency. -/
def cxCard : Card :=
  { id := "a", user_id := "u", created_at := 0, title := "A", subtasks := [],
    datetime_start := 0, datetime_end := 7200000, duration_min := 60,
    category := "Travail", priority := "haute", notes := "" }

/-- The local state holding `cxCard` on day 0. -/
def cxSched : ScheduleData := [(0, [cxCard])]

/-- C1 counterexample: moving `cxCard` to day 1 writes a task whose
span is `duration_min * 60000 = 3600000` ms, not the 7200000 ms span
the task had before the move — `moveCard` recomputes the end from
`duration_min`, so end minus start is not invariant for a task whose
stored span disagrees with its `duration_min`. -/
theorem moveCard_duration_counterexample :
    findCardLocation cxSched "a" = some (0, cxCard)
    ∧ cxCard.datetime_end - cxCard.datetime_start = 7200000
    ∧ writeSpan (moveCard cxSched "a" 1) = some 3600000
    ∧ ¬ writeSpan (moveCard cxSched "a" 1) =
        some (cxCard.datetime_end - cxCard.datetime_start) := by
  refine ⟨by decide, by decide, by decide, by decide⟩

/-- C1 (amended): for every located task, `moveCard` writes a start
instant that transplants the original whole-minute time-of-day onto the
target day and an end instant equal to that start plus `duration_min`
minutes, so the span of the moved task always equals
`duration_min * 60000` milliseconds; the span before the move is
preserved — equivalently, the end is shifted by the same delta as the
start — if and only if the task's stored span already agreed with its
`duration_min` field (as every task saved through the app does). -/
theorem moveCard_transplants_and_preserves_duration (sched : ScheduleData)
    (cardId : String) (targetDay : Int) (d : Int) (c : Card)
    (hloc : findCardLocation sched cardId = some (d, c)) :
    ∃ s e, (moveCard sched cardId targetDay).write.map
        (fun w => (w.2.datetime_start, w.2.datetime_end)) = some (some s, some e)
      ∧ s = targetDay * msPerDay + minuteOffsetMs c.datetime_start
      ∧ e = s + c.duration_min * 60000
      ∧ (e - s = c.datetime_end - c.datetime_start ↔
          c.datetime_end - c.datetime_start = c.duration_min * 60000)
      ∧ (e = c.datetime_end + (s - c.datetime_start) ↔
          c.datetime_end - c.datetime_start = c.duration_min * 60000) := by
  unfold moveCard
  rw [hloc]
  refine ⟨_, _, rfl, rfl, rfl, ?_, ?_⟩
  · constructor <;> (intro h; omega)
  · constructor <;> (intro h; omega)

/-- A card whose stored span agrees with its `duration_min` (1 hour). -/
def cwCard : Card :=
  { id := "c", user_id := "u", created_at := 0, title := "C", subtasks := [],
    datetime_start := 0, datetime_end := 3600000, duration_min := 60,
    category := "Travail", priority := "haute", notes := "" }

/-- The local state holding `cwCard` on day 0. -/
def cwSched : ScheduleData := [(0, [cwCard])]

/-- C1 witness: the amended theorem applied to a concrete task moved
from day 0 to day 1. -/
theorem moveCard_transplants_and_preserves_duration_witness :
    ∃ s e, (moveCard cwSched "c" 1).write.map
        (fun w => (w.2.datetime_start, w.2.datetime_end)) = some (some s, some e)
      ∧ s = 1 * msPerDay + minuteOffsetMs cwCard.datetime_start
      ∧ e = s + cwCard.duration_min * 60000
      ∧ (e - s = cwCard.datetime_end - cwCard.datetime_start ↔
          cwCard.datetime_end - cwCard.datetime_start = cwCard.duration_min * 60000)
      ∧ (e = cwCard.datetime_end + (s - cwCard.datetime_start) ↔
          cwCard.datetime_end - cwCard.datetime_start = cwCard.duration_min * 60000) :=
  moveCard_transplants_and_preserves_duration cwSched "c" 1 0 cwCard (by decide)

/-- C6 counterexample: the earlier variant's `moveCard` consults no
local state at all — with an empty local `ScheduleData`, in which the
id "x" cannot be located, it still issues the `task_date` store
write (and refetches), so the move is not a no-op there. -/
theorem moveCard_missing_counterexample :
    findCardLocationOld [] "x" = none
    ∧ (moveCardOld "x" 0).write =
        some ("x",
          { task_date := some 0, title := none, time := none, details := none,
            color := none, progress := none, created_at := none, user_id := none })
    ∧ (moveCardOld "x" 0).refetch = true :=
  ⟨rfl, rfl, rfl⟩

/-- C6 (amended): in the later variant, a `moveCard` call whose card id
is not located in the local `ScheduleData` is a silent no-op — no store
write is issued, no refetch is triggered, and the local state is left
unchanged; the earlier variant instead issues the update
unconditionally. -/
theorem moveCard_missing_noop (sched : ScheduleData) (cardId : String) (targetDay : Int)
    (h : findCardLocation sched cardId = none) :
    (moveCard sched cardId targetDay).newSchedule = sched
    ∧ (moveCard sched cardId targetDay).write = none
    ∧ (moveCard sched cardId targetDay).refetch = false := by
  unfold moveCard
  rw [h]
  exact ⟨rfl, rfl, rfl⟩

/-- C6 witness: the amended theorem applied to the empty local state. -/
theorem moveCard_missing_noop_witness :
    (moveCard [] "x" 0).newSchedule = []
    ∧ (moveCard [] "x" 0).write = none
    ∧ (moveCard [] "x" 0).refetch = false :=
  moveCard_missing_noop [] "x" 0 (by decide)

/-- C7: when any required field of the AI draft response is missing
(later variant: title, start, end, duration, category, priority;
earlier variant: title, date, time), `handleAIGenerate` raises the
user-visible alert, opens no edit modal with a partial task, and leaves
the `ScheduleData` unchanged. -/
theorem ai_missing_field_fails (resp : AIDraft) (sched : ScheduleData)
    (respOld : AIDraftOld) (schedOld : ScheduleDataOld)
    (h : resp.title = none ∨ resp.datetime_start = none ∨ resp.datetime_end = none ∨
      resp.duration_min = none ∨ resp.category = none ∨ resp.priority = none)
    (hOld : respOld.title = none ∨ respOld.task_date = none ∨ respOld.time = none) :
    ((handleAIGenerate resp sched).editingCard = none
      ∧ (handleAIGenerate resp sched).alerted = true
      ∧ (handleAIGenerate resp sched).schedule = sched)
    ∧ ((handleAIGenerateOld respOld schedOld).editingCard = none
      ∧ (handleAIGenerateOld respOld schedOld).alerted = true
      ∧ (handleAIGenerateOld respOld schedOld).schedule = schedOld) := by
  have hc : aiDraftComplete resp = false := by
    unfold aiDraftComplete
    rcases h with h | h | h | h | h | h <;> simp [h, truthyStr, truthyInt]
  have hcOld : aiDraftOldComplete respOld = false := by
    unfold aiDraftOldComplete
    rcases hOld with h | h | h <;> simp [h, truthyStr]
  unfold handleAIGenerate handleAIGenerateOld
  rw [hc, hcOld]
  exact ⟨⟨rfl, rfl, rfl⟩, ⟨rfl, rfl, rfl⟩⟩

/-- An AI response with every field absent. -/
def cwDraft : AIDraft :=
  { title := none, subtasks := none, datetime_start := none, datetime_end := none,
    duration_min := none, category := none, priority := none, notes := none }

/-- An earlier-variant AI response with every field absent. -/
def cwDraftOld : AIDraftOld :=
  { title := none, task_date := none, time := none, details := none }

/-- C7 witness: the theorem applied to responses missing their title. -/
theorem ai_missing_field_fails_witness :
    ((handleAIGenerate cwDraft []).editingCard = none
      ∧ (handleAIGenerate cwDraft []).alerted = true
      ∧ (handleAIGenerate cwDraft []).schedule = [])
    ∧ ((handleAIGenerateOld cwDraftOld []).editingCard = none
      ∧ (handleAIGenerateOld cwDraftOld []).alerted = true
      ∧ (handleAIGenerateOld cwDraftOld []).schedule = []) :=
  ai_missing_field_fails cwDraft [] cwDraftOld [] (by decide) (by decide)

/-- C8: the store update issued by a move touches only the scheduling
columns — `datetime_start` and `datetime_end` in the later variant,
`task_date` in the earlier variant; every other column (title,
subtasks/details, duration, category/color, priority/progress, notes,
owner, created timestamp) is absent from the payload. -/
theorem moveCard_update_only_scheduling (sched : ScheduleData) (cardId : String)
    (targetDay : Int) (d : Int) (c : Card) (cidOld : String) (targetOld : Int)
    (hloc : findCardLocation sched cardId = some (d, c)) :
    (∃ s e, (moveCard sched cardId targetDay).write = some (cardId,
          { datetime_start := some s, datetime_end := some e, title := none,
            subtasks := none, duration_min := none, category := none,
            priority := none, notes := none, created_at := none, user_id := none }))
    ∧ (moveCardOld cidOld targetOld).write = some (cidOld,
          { task_date := some targetOld, title := none, time := none, details := none,
            color := none, progress := none, created_at := none, user_id := none }) := by
  constructor
  · unfold moveCard
    rw [hloc]
    exact ⟨_, _, rfl⟩
  · rfl

/-- C8 witness: the theorem applied to the concrete one-card state. -/
theorem moveCard_update_only_scheduling_witness :
    (∃ s e, (moveCard cwSched "c" 1).write = some ("c",
          { datetime_start := some s, datetime_end := some e, title := none,
            subtasks := none, duration_min := none, category := none,
            priority := none, notes := none, created_at := none, user_id := none }))
    ∧ (moveCardOld "x" 2).write = some ("x",
          { task_date := some 2, title := none, time := none, details := none,
            color := none, progress := none, created_at := none, user_id := none }) :=
  moveCard_update_only_scheduling cwSched "c" 1 0 cwCard "x" 2 (by decide)

/-- C10: every save issued through the later edit modal with a
non-empty title produces a record whose end instant is the form's start
instant plus `duration_min` minutes — the form state carries no end
field, so the end is always recomputed, never taken from the card's
previous end instant. -/
theorem handleSave_recomputes_end (formData : CardForm)
    (h : ¬ formData.title = "") :
    ∃ dts : SaveData, handleSave formData = some dts
      ∧ dts.datetime_end = dts.datetime_start + dts.duration_min * 60000
      ∧ dts.datetime_start = formData.datetime_start
      ∧ dts.duration_min = formData.duration_min := by
  have hb : (formData.title == "") = false := by simpa using h
  unfold handleSave
  rw [hb]
  exact ⟨_, rfl, rfl, rfl, rfl⟩

/-- A concrete edit-modal form: task at 09:00 of day 1 lasting 90
minutes. -/
def cwForm : CardForm :=
  { title := "Reunion", datetime_start := 86400000 + 32400000, duration_min := 90,
    category := "Travail", priority := "haute", subtasks := ["a", ""], notes := "" }

/-- C10 witness: the theorem applied to the concrete form. -/
theorem handleSave_recomputes_end_witness :
    ∃ dts : SaveData, handleSave cwForm = some dts
      ∧ dts.datetime_end = dts.datetime_start + dts.duration_min * 60000
      ∧ dts.datetime_start = cwForm.datetime_start
      ∧ dts.duration_min = cwForm.duration_min :=
  handleSave_recomputes_end cwForm (by decide)

end Planning
